import Mathlib

/-!
Shallow embedding of `collectd_openstack.py` (stackforge/fuel-plugin-lma-collector,
`deployment_scripts/puppet/modules/lma_collector/files/collectd/collectd_openstack.py`).

The embedding follows the source line by line:

* `OSClientState` is the mutable state of class `OSClient` (token, valid_until,
  tenant_id, service_catalog).  Times are modelled as `Int` (seconds); the
  datetime subtraction `expires - EXPIRATION_TOKEN_DELTA` becomes integer
  subtraction by 30.
* HTTP calls are modelled by explicitly passing the transport outcome:
  `none` stands for a transport-level exception raised by `requests` (which
  `make_request` catches and turns into a `None` return); `some r` stands for
  a received `requests.Response`.  Python exceptions raised by the code itself
  are modelled with `Except PyExc`, returned next to the updated state so that
  the state visible to the caller at raise time is explicit.
* `requests.Response.__nonzero__` makes a response falsy exactly when
  `400 <= status_code < 600` (`Response.ok`), which is what `if not r:` tests;
  `respTruthy` embeds that.
* JSON bodies are modelled per call site with just the structure each call
  site reads (field `none` models a missing key, i.e. a `KeyError` on access;
  a `malformed` constructor models a body on which `.json()` raises).
-/

namespace CollectdOpenstack

/-- One entry appended to `OSClient.service_catalog` (lines 110-116). -/
structure CatalogEntry where
  name : String
  region : String
  service_type : String
  url : String
  admin_url : String
  deriving DecidableEq, Repr

/-- The mutable session state of `OSClient` (lines 53-57):
`token`, `valid_until`, `tenant_id`, `service_catalog`. -/
structure OSClientState where
  token : Option String
  valid_until : Option Int
  tenant_id : Option String
  service_catalog : List CatalogEntry
  deriving DecidableEq, Repr

/-- `datetime.timedelta(0, 30)` (line 44), in seconds. -/
def EXPIRATION_TOKEN_DELTA : Int := 30

/-- Python truthiness of `self.token` (a string or `None`): falsy iff `None`
or the empty string. -/
def tokenTruthy : Option String → Bool
  | none => false
  | some t => !(t == "")

/-- Truthiness of a `requests.Response`: `Response.__nonzero__` returns
`Response.ok`, which is false exactly for `400 <= status_code < 600`. -/
def respTruthy (status_code : Int) : Bool :=
  if 400 ≤ status_code ∧ status_code < 600 then false else true

/-- `OSClient.is_valid_token` (lines 68-70):
`return self.token and self.valid_until and self.valid_until > now`.
A `datetime` object is always truthy, so `self.valid_until` is truthy iff set. -/
def is_valid_token (st : OSClientState) (now : Int) : Bool :=
  tokenTruthy st.token &&
    (match st.valid_until with
     | none => false
     | some v => decide (now < v))

/-- `OSClient.clear_token` (lines 72-74): sets both `token` and `valid_until`
to `None`. -/
def clear_token (st : OSClientState) : OSClientState :=
  ⟨none, none, st.tenant_id, st.service_catalog⟩

/-- Exceptions raised by the embedded code. `keystone` is `KeystoneException`
(line 35); `keyErr`, `valueErr`, `indexErr` model Python's `KeyError`,
`ValueError` (JSON decode / parse errors) and `IndexError`. -/
inductive PyExc where
  | keystone (msg : String)
  | keyErr
  | valueErr
  | indexErr
  deriving DecidableEq, Repr

/-- An HTTP response with a body of shape `β` (one `β` per call site). -/
structure HResp (β : Type) where
  status_code : Int
  body : β
  deriving DecidableEq, Repr

/-- Lines 143-156 of `OSClient.make_request`: issue the call inside
`try/except` (a transport exception is caught and `None` is returned), then
on HTTP 401 clear the token before returning the response to the caller. -/
def make_request_core {β : Type} (st : OSClientState) (call : Option (HResp β)) :
    OSClientState × Option (HResp β) :=
  match call with
  | none => (st, none)
  | some r => if r.status_code = 401 then (clear_token st, some r) else (st, some r)

/-- `item['endpoints'][0]` of a serviceCatalog item (lines 109-115). -/
structure Endpoint where
  region : String
  internalURL : String
  adminURL : String
  deriving DecidableEq, Repr

/-- One item of `data['access']['serviceCatalog']` (lines 108-116).
`endpoints` may be empty, in which case `item['endpoints'][0]` raises
`IndexError`. -/
structure CatalogItem where
  name : String
  service_type : String
  endpoints : List Endpoint
  deriving DecidableEq, Repr

/-- The decoded Keystone auth payload as read by `get_token` (lines 101-116).
A `none` field models the corresponding key path being absent from the JSON
(so the dict access raises `KeyError`); `expires = none` also covers an
unparsable expiry timestamp. -/
structure AuthPayload where
  token_id : Option String
  tenant_id : Option String
  expires : Option Int
  serviceCatalog : Option (List CatalogItem)
  deriving DecidableEq, Repr

/-- Body of the Keystone response: `malformed` models a body on which
`r.json()` raises `ValueError`. -/
inductive AuthBody where
  | malformed
  | parsed (p : AuthPayload)
  deriving DecidableEq, Repr

/-- The catalog rebuilding loop (lines 107-116): `self.service_catalog = []`
followed by appends; stops with `IndexError` when an item's `endpoints` list
is empty, leaving the catalog partially rebuilt. -/
def runCatalog : List CatalogItem → List CatalogEntry → List CatalogEntry × Option PyExc
  | [], acc => (acc, none)
  | item :: rest, acc =>
    match item.endpoints with
    | [] => (acc, some PyExc.indexErr)
    | e :: _ =>
      runCatalog rest (acc ++ [⟨item.name, e.region, item.service_type, e.internalURL, e.adminURL⟩])

/-- `OSClient.get_token` (lines 76-119).  `auth` is the transport outcome of
the `POST <keystone_url>/tokens` issued through `make_request` with
`token_required=False` (`none` = transport exception, so that inner
`make_request` returns `None`).  Returns the state as left behind together
with either the token string (`self.token` is returned, line 119) or the
exception raised.  The sequence of field updates mirrors lines 103-116:
token, tenant_id, valid_until, catalog reset, catalog append loop. -/
def get_token (st : OSClientState) (auth : Option (HResp AuthBody)) :
    OSClientState × Except PyExc String :=
  let st0 := clear_token st
  let res := make_request_core st0 auth
  match res.2 with
  | none => (res.1, Except.error (PyExc.keystone ("Cannot get a valid token")))
  | some r =>
    if respTruthy r.status_code = false then
      (res.1, Except.error (PyExc.keystone ("Cannot get a valid token")))
    else if r.status_code < 200 ∨ r.status_code > 299 then
      (res.1, Except.error (PyExc.keystone ("responded with bad status code")))
    else
      match r.body with
      | AuthBody.malformed => (res.1, Except.error PyExc.valueErr)
      | AuthBody.parsed p =>
        match p.token_id with
        | none => (res.1, Except.error PyExc.keyErr)
        | some tid =>
          let st1 : OSClientState := ⟨some tid, res.1.valid_until, res.1.tenant_id, res.1.service_catalog⟩
          match p.tenant_id with
          | none => (st1, Except.error PyExc.keyErr)
          | some tn =>
            let st2 : OSClientState := ⟨st1.token, st1.valid_until, some tn, st1.service_catalog⟩
            match p.expires with
            | none => (st2, Except.error PyExc.keyErr)
            | some ex =>
              let st3 : OSClientState :=
                ⟨st2.token, some (ex - EXPIRATION_TOKEN_DELTA), st2.tenant_id, st2.service_catalog⟩
              let st4 : OSClientState := ⟨st3.token, st3.valid_until, st3.tenant_id, []⟩
              match p.serviceCatalog with
              | none => (st4, Except.error PyExc.keyErr)
              | some items =>
                let built := runCatalog items []
                let st5 : OSClientState := ⟨st4.token, st4.valid_until, st4.tenant_id, built.1⟩
                match built.2 with
                | some e => (st5, Except.error e)
                | none => (st5, Except.ok tid)

/-- `OSClient.make_request` (lines 121-156).  `auth` is the transport outcome
the Keystone endpoint would give if `get_token` is invoked; `call` is the
transport outcome of the request itself (`none` = transport exception, caught
at lines 143-148 and turned into a `None` return).  The token gate is line
128-133: `if token_required and not self.is_valid_token() and not
self.get_token():` — note that an exception raised by `get_token` propagates
out of `make_request` (the `try` only wraps the transport call). -/
def make_request {β : Type} (st : OSClientState) (now : Int) (token_required : Bool)
    (auth : Option (HResp AuthBody)) (call : Option (HResp β)) :
    OSClientState × Except PyExc (Option (HResp β)) :=
  if token_required && !(is_valid_token st now) then
    match get_token st auth with
    | (st1, Except.error e) => (st1, Except.error e)
    | (st1, Except.ok tok) =>
      if tok == "" then (st1, Except.ok none)
      else
        let res := make_request_core st1 call
        (res.1, Except.ok res.2)
  else
    let res := make_request_core st call
    (res.1, Except.ok res.2)

/-! ## OpenstackApiPoller (lines 159-246) -/

/-- A collection object as handled by the poller; the poller only ever reads
`obj['id']` (line 227), the rest is opaque. -/
structure PageObj where
  id : String
  payload : String
  deriving DecidableEq, Repr

/-- One entry of the `<object_name>_links` list; the poller reads
`i.get('rel')` (line 224), `none` models a missing `rel` key. -/
structure PageLink where
  rel : Option String
  deriving DecidableEq, Repr

/-- The JSON body of one collection page as read by the poller:
`hasKey` models `self.object_name in r.json()` (line 191), `objects` models
`resp.get(self.object_name)` (line 207), `links` models
`resp.get('<object_name>_links')` (line 214, `none` = key absent). -/
structure PageBody where
  hasKey : Bool
  objects : List PageObj
  links : Option (List PageLink)
  deriving DecidableEq, Repr

/-- Body of a page response; `malformed` models a body on which `r.json()`
raises (line 191), which escapes to the cycle-level handler. -/
inductive PollBody where
  | malformed
  | page (b : PageBody)
  deriving DecidableEq, Repr

/-- Observable outcome of the poller's `self.os_client.make_request` call
(line 188): the call raised (e.g. `KeystoneException` from `get_token`),
returned `None`, or returned a response. -/
inductive MRResult where
  | exc
  | noneResp
  | resp (r : HResp PollBody)
  deriving DecidableEq, Repr

/-- How one page-walk (the inner `while True` of `OpenstackApiPoller.run`,
lines 187-227) ended: `failed` = the warning branch of lines 191-204 was
taken, `complete` = a normal `break`, `excEnd` = an exception escaped to the
`except` at line 239, `fuelOut` = artificial fuel exhaustion of the model. -/
inductive WalkExit where
  | failed
  | complete
  | excEnd
  | fuelOut
  deriving DecidableEq, Repr

/-- Line 224: `len([i for i in links if i.get('rel') == 'next']) == 0` is the
stop condition; `hasNextLink` is its negation. -/
def hasNextLink (ls : List PageLink) : Bool :=
  !((ls.filter (fun l => l.rel == some ("next"))).length == 0)

/-- Placeholder object for `List.getLastD`; only ever used on lists that are
known to be non-empty (`bulk_objs[-1]`, line 227). -/
def defaultObj : PageObj := ⟨"", ""⟩

/-- `bulk_objs[-1]['id']` (line 227). -/
def lastIdOf (objs : List PageObj) : String := (objs.getLastD defaultObj).id

/-- Result of one iteration of the inner page loop: stop the walk with the
given accumulator and exit kind, or continue with the extended accumulator
and the next marker. -/
inductive StepRes where
  | stop (objs : List PageObj) (e : WalkExit)
  | next (objs : List PageObj) (m2 : Option String)
  deriving DecidableEq, Repr

/-- One iteration of the inner page loop of `OpenstackApiPoller.run`
(lines 188-227), given the outcome of `make_request`:

* raised exception → escapes to line 239 (`excEnd`);
* `not r` (response `None` or falsy, i.e. status in [400,600)) or the
  collection key missing → warning branch, lines 191-204 (`failed`);
* `r.json()` raising → escapes to line 239 (`excEnd`);
* empty page → `break` (line 210);
* otherwise extend `objs`; stop if the links key is absent or
  `pagination_limit` is `None` (line 215) or no `next` link (line 224);
* else continue with `marker = bulk_objs[-1]['id']` (line 227). -/
def walkStep (pl : Option Nat) (objs : List PageObj) : MRResult → StepRes
  | MRResult.exc => StepRes.stop objs WalkExit.excEnd
  | MRResult.noneResp => StepRes.stop objs WalkExit.failed
  | MRResult.resp r =>
    if respTruthy r.status_code = false then StepRes.stop objs WalkExit.failed
    else
      match r.body with
      | PollBody.malformed => StepRes.stop objs WalkExit.excEnd
      | PollBody.page b =>
        if b.hasKey = false then StepRes.stop objs WalkExit.failed
        else
          match b.objects with
          | [] => StepRes.stop objs WalkExit.complete
          | o :: os =>
            let objs2 := objs ++ (o :: os)
            match b.links, pl with
            | none, _ => StepRes.stop objs2 WalkExit.complete
            | some _, none => StepRes.stop objs2 WalkExit.complete
            | some ls, some _ =>
              if hasNextLink ls = false then StepRes.stop objs2 WalkExit.complete
              else StepRes.next objs2 (some (lastIdOf (o :: os)))

/-- Result of a whole page-walk: the accumulator `objs` at exit, the exit
kind, and the ordered list of markers used on the requests that were issued
(`none` = no `marker` query parameter, i.e. the first request). -/
structure WalkOut where
  objs : List PageObj
  exitK : WalkExit
  markers : List (Option String)
  deriving DecidableEq, Repr

/-- The inner `while True` page-walk of `OpenstackApiPoller.run`
(lines 187-227).  `req` maps the marker of a request to the outcome of that
request (the base query parameters are fixed for a poller and folded into
`req`); `pl` is `self.pagination_limit`; `fuel` bounds the number of
iterations (the theorems always supply enough). -/
def pageWalk (req : Option String → MRResult) (pl : Option Nat) :
    Nat → Option String → List PageObj → WalkOut
  | 0, _, objs => ⟨objs, WalkExit.fuelOut, []⟩
  | Nat.succ fuel, marker, objs =>
    match walkStep pl objs (req marker) with
    | StepRes.stop o e => ⟨o, e, [marker]⟩
    | StepRes.next o m2 =>
      let rest := pageWalk req pl fuel m2 o
      ⟨rest.objs, rest.exitK, marker :: rest.markers⟩

/-- The value of `self._objects` at the end of one full cycle of
`OpenstackApiPoller.run` (one iteration of the outer `while True`,
lines 180-243), i.e. what `get_objects` returns once the cycle is over.

Every path through the cycle body ends in the unconditional assignment
`self._objects = objs` (line 243, at the same indentation as the
`try`/`except`): the resets `self._objects = []` in the warning branch
(line 203) and in the `except` handler (line 241) are both followed by
line 243, which stores the accumulator `objs` as it stood when the walk
stopped.  Hence the end-of-cycle snapshot is always the accumulator. -/
def runCycleFinalSnapshot (req : Option String → MRResult) (pl : Option Nat) (fuel : Nat) :
    List PageObj :=
  (pageWalk req pl fuel none []).objs

/-! ## CollectdPlugin (lines 249-443) -/

/-- The registry's view of one `OpenstackApiPoller` thread (lines 160-176):
the constructor arguments it was created with, whether its background loop is
still alive (`threading.Thread.is_alive`), and its current `self._objects`. -/
structure PollerT where
  object_name : String
  url : String
  pagination_limit : Option Nat
  interval : Nat
  params : List (String × String)
  alive : Bool
  objsP : List PageObj
  deriving DecidableEq, Repr

/-- `OpenstackApiPoller.get_objects` (lines 245-246): a non-blocking read of
`self._objects`. -/
def poller_get_objects (t : PollerT) : List PageObj := t.objsP

/-- The state of `CollectdPlugin` relevant to the poller registry
(lines 259-261): `self._threads` (a dict keyed by URL, modelled as an
association list), `self.pagination_limit` and `self.polling_interval`. -/
structure PluginState where
  threads : List (String × PollerT)
  pagination_limit : Option Nat
  polling_interval : Nat
  deriving DecidableEq, Repr

/-- `url in self._threads` / `self._threads[url]` on the association list. -/
def lookupUrl : List (String × PollerT) → String → Option PollerT
  | [], _ => none
  | q :: rest, u => if q.1 = u then some q.2 else lookupUrl rest u

/-- `del self._threads[url]` on the association list. -/
def eraseUrl : List (String × PollerT) → String → List (String × PollerT)
  | [], _ => []
  | q :: rest, u => if q.1 = u then rest else q :: eraseUrl rest u

/-- `CollectdPlugin.get_service` (lines 359-361): first catalog entry with
the given name. -/
def get_service (catalog : List CatalogEntry) (service_name : String) : Option CatalogEntry :=
  catalog.find? (fun x => x.name == service_name)

/-- Character-list test: the first list is a leading segment of the second. -/
def chPre : List Char → List Char → Bool
  | [], _ => true
  | _ :: _, [] => false
  | a :: as, b :: bs => a == b && chPre as bs

/-- Character-list test: the first list occurs contiguously in the second. -/
def chInf (n : List Char) : List Char → Bool
  | [] => chPre n []
  | c :: cs => chPre n (c :: cs) || chInf n cs

/-- `'OS-KS' in resource` (line 267): substring containment, over the
underlying character lists. -/
def containsOSKS (resource : String) : Bool := chInf ("OS-KS").data resource.data

/-- `CollectdPlugin._build_url` (lines 263-278): pick `admin_url` for the
Keystone v2 admin resources, otherwise `url`; a missing service or a falsy
(empty) URL yields `None`; otherwise a `/` is appended when missing and the
resource path concatenated. -/
def build_url (catalog : List CatalogEntry) (service resource : String) : Option String :=
  let s := get_service catalog service
  let urlO : Option String :=
    if service == ("keystone") &&
        (resource == ("tenants") || resource == ("users") || containsOSKS resource) then
      s.map (fun x => x.admin_url)
    else
      s.map (fun x => x.url)
  match urlO with
  | none => none
  | some u =>
    if u == "" then none
    else if (u.data.getLastD (' ')) == ('/') then some (u ++ resource)
    else some (u ++ ("/") ++ resource)

/-- The resource path built by `CollectdPlugin.get_objects` (lines 395-401):
optionally versioned, optionally with a `/detail` suffix. -/
def resourceOf (object_name api_version : String) (detail : Bool) : String :=
  let r := if api_version == "" then object_name else api_version ++ ("/") ++ object_name
  if detail then r ++ ("/detail") else r

/-- The query options passed to a new poller (lines 407-411): `limit` when
`self.pagination_limit` is truthy (a configured non-zero limit), then the
caller's params. -/
def optsOf (ps : PluginState) (params : List (String × String)) : List (String × String) :=
  (match ps.pagination_limit with
   | some n => if n = 0 then [] else [(("limit"), toString n)]
   | none => []) ++ params

/-- The poller created and started at lines 413-418: fresh `self._objects`
is `[]` (line 172) and the thread has just been started. -/
def newPoller (ps : PluginState) (object_name url : String)
    (opts : List (String × String)) : PollerT :=
  ⟨object_name, url, ps.pagination_limit, ps.polling_interval, opts, true, []⟩

/-- `CollectdPlugin.get_objects` (lines 383-426): build the resource path and
URL; on a missing URL return `[]`; otherwise create-and-register a poller for
a new URL (and return its fresh, empty snapshot), evict a dead poller and
return `[]`, or return the live poller's current snapshot. -/
def cp_get_objects (ps : PluginState) (catalog : List CatalogEntry)
    (project object_name api_version : String) (params : List (String × String))
    (detail : Bool) : PluginState × List PageObj :=
  match build_url catalog project (resourceOf object_name api_version detail) with
  | none => (ps, [])
  | some url =>
    let opts := optsOf ps params
    match lookupUrl ps.threads url with
    | none =>
      let t := newPoller ps object_name url opts
      (⟨ps.threads ++ [(url, t)], ps.pagination_limit, ps.polling_interval⟩,
       poller_get_objects t)
    | some t =>
      if t.alive = false then
        (⟨eraseUrl ps.threads url, ps.pagination_limit, ps.polling_interval⟩, [])
      else (ps, poller_get_objects t)

/-- A Python value as returned by a `count_func` (lines 439-442): adding a
non-numeric value to an `int` raises `TypeError`; `bool` counts as numeric
(`True` adds 1). -/
inductive PyVal where
  | pInt (n : Int)
  | pBool (b : Bool)
  | pStr (s : String)
  | pNone
  deriving DecidableEq, Repr

/-- The values an `int` accumulator can absorb: `counts[s] += v` succeeds for
`int` and `bool` and raises `TypeError` otherwise. -/
def toNum : PyVal → Option Int
  | PyVal.pInt n => some n
  | PyVal.pBool b => some (if b then 1 else 0)
  | _ => none

/-- Point update of the counts mapping (`defaultdict(int)` read as a total
function defaulting to 0). -/
def updateFn {K : Type} [DecidableEq K] (f : K → Int) (k : K) (v : Int) : K → Int :=
  fun x => if x = k then v else f x

/-- The body of the loop in `count_objects_group_by` (lines 436-442):
`counts[s] += count_func(obj) if count_func else 1`, with `TypeError`
silently ignored. -/
def cogbStep {α K : Type} [DecidableEq K] (group_by_func : α → K)
    (count_func : Option (α → PyVal)) (counts : K → Int) (obj : α) : K → Int :=
  match count_func with
  | some cf =>
    match toNum (cf obj) with
    | some n => updateFn counts (group_by_func obj) (counts (group_by_func obj) + n)
    | none => counts
  | none => updateFn counts (group_by_func obj) (counts (group_by_func obj) + 1)

/-- `CollectdPlugin.count_objects_group_by` (lines 428-443), with the
returned `defaultdict(int)` modelled as a total function defaulting to 0. -/
def count_objects_group_by {α K : Type} [DecidableEq K]
    (list_object : List α) (group_by_func : α → K) (count_func : Option (α → PyVal)) :
    K → Int :=
  list_object.foldl (cogbStep group_by_func count_func) (fun _ => 0)

/-- One element of the worker/agent listing as read by `iter_workers`
(lines 323-342).  Network agents (neutron) carry `admin_state_up` and
`alive`; generic service listings carry `status` and `state`; both carry
`host` and `binary`.  One record holds all fields, each branch only reads
its own. -/
structure WorkerVal where
  host : String
  binary : String
  admin_state_up : Bool
  alive : Bool
  status : String
  state : String
  deriving DecidableEq, Repr

/-- One dictionary yielded by `iter_workers` (lines 287-294). -/
structure Worker where
  host : String
  service : String
  state : String
  deriving DecidableEq, Repr

/-- Body of the listing response: `malformed` models `r.json()` raising
`ValueError` (caught at lines 314-317, leaving `r_json = ` the empty dict);
`obj none` models the expected entry key (`agents` or `services`) missing. -/
inductive WBody where
  | malformed
  | obj (entries : Option (List WorkerVal))
  deriving DecidableEq, Repr

/-- The per-entry normalization of `iter_workers` (lines 323-342): `none`
means the entry is skipped (`continue` on an unknown state). -/
def workerOf (service : String) (v : WorkerVal) : Option Worker :=
  if service == ("neutron") then
    some ⟨v.host, v.binary,
      if v.admin_state_up = false then ("disabled")
      else if v.alive then ("up") else ("down")⟩
  else
    if v.status == ("disabled") then some ⟨v.host, v.binary, ("disabled")⟩
    else if v.state == ("up") || v.state == ("down") then some ⟨v.host, v.binary, v.state⟩
    else none

/-- `CollectdPlugin.iter_workers` (lines 284-342), the generator collected
into a list.  `resp` is the outcome of `self.get(service, endpoint)`:
a `None` response, a non-200 status, an unparsable body or a missing entry
key all yield nothing. -/
def iter_workers (service : String) (resp : Option (HResp WBody)) : List Worker :=
  match resp with
  | none => []
  | some r =>
    if r.status_code ≠ 200 then []
    else
      match r.body with
      | WBody.malformed => []
      | WBody.obj none => []
      | WBody.obj (some vals) => vals.filterMap (workerOf service)

/-- `req` serves a well-formed paginated collection `pages` starting at
marker `m`: each page is non-empty and is returned (status 200, collection
key present) for the corresponding marker; every page except the last
carries a links list with a `next` entry, the last page's links list has no
`next` entry; each page after the first is keyed by the id of the last
object of the previous page. -/
def serves (req : Option String → MRResult) : Option String → List (List PageObj) → Prop
  | _, [] => True
  | m, p :: rest =>
    p ≠ [] ∧
    (∃ ls : List PageLink,
      req m = MRResult.resp ⟨200, PollBody.page ⟨true, p, some ls⟩⟩ ∧
      hasNextLink ls = !rest.isEmpty) ∧
    serves req (some (lastIdOf p)) rest

/-- The failure shapes of the Keystone exchange that `get_token` turns into
a `KeystoneException` (lines 93-99): transport failure (`None` response),
falsy response (status in [400,600)), or a status outside 2xx. -/
def authFailed : Option (HResp AuthBody) → Prop
  | none => True
  | some r => respTruthy r.status_code = false ∨ r.status_code < 200 ∨ r.status_code > 299

/-- Replace the status code of every truthy response by 200, leaving falsy
responses and non-responses unchanged (used to state that the page-walk
reads nothing of a truthy response's status code). -/
def normResult : MRResult → MRResult
  | MRResult.resp r =>
    if respTruthy r.status_code then MRResult.resp ⟨200, r.body⟩ else MRResult.resp r
  | x => x

/-- `normResult` applied pointwise to a transport function. -/
def normStatus (req : Option String → MRResult) : Option String → MRResult :=
  fun m => normResult (req m)

/-! ### Concrete instances used by the counterexamples and witnesses -/

def oA : PageObj := ⟨"a", "A"⟩

def oB : PageObj := ⟨"b", "B"⟩

def oC : PageObj := ⟨"c", "C"⟩

def oD : PageObj := ⟨"d", "D"⟩

def oE : PageObj := ⟨"e", "E"⟩

def oF : PageObj := ⟨"f", "F"⟩

/-- A well-formed collection of 3 pages of 2 objects each. -/
def wfPages : List (List PageObj) := [[oA, oB], [oC, oD], [oE, oF]]

/-- A transport serving `wfPages`: page 1 at no marker, page 2 at marker
`b`, page 3 (without a `next` link) at marker `d`. -/
def req3 : Option String → MRResult := fun m =>
  if m = none then
    MRResult.resp ⟨200, PollBody.page ⟨true, [oA, oB], some [⟨some ("next")⟩]⟩⟩
  else if m = some ("b") then
    MRResult.resp ⟨200, PollBody.page ⟨true, [oC, oD], some [⟨some ("next")⟩]⟩⟩
  else if m = some ("d") then
    MRResult.resp ⟨200, PollBody.page ⟨true, [oE, oF], some [⟨some ("prev")⟩]⟩⟩
  else MRResult.noneResp

/-- A transport whose first page is fine (with a `next` link) and whose
second page (marker `b`) lacks the collection key. -/
def c1req : Option String → MRResult := fun m =>
  if m = none then
    MRResult.resp ⟨200, PollBody.page ⟨true, [oA, oB], some [⟨some ("next")⟩]⟩⟩
  else if m = some ("b") then
    MRResult.resp ⟨200, PollBody.page ⟨false, [], none⟩⟩
  else MRResult.noneResp

/-- A transport answering the first request with an HTTP 500 whose body does
contain the collection key and one object. -/
def c10req : Option String → MRResult := fun m =>
  if m = none then MRResult.resp ⟨500, PollBody.page ⟨true, [oA], none⟩⟩
  else MRResult.noneResp

/-- A catalog entry for the witnesses. -/
def novaEntry : CatalogEntry := ⟨"nova", "RegionOne", "compute", "http://nova", "http://nova-admin"⟩

/-- A session that holds a full set of prior credentials. -/
def c3State : OSClientState := ⟨some ("tok0"), some 100, some ("ten0"), [novaEntry]⟩

/-- A fresh session with no credentials. -/
def stEmpty : OSClientState := ⟨none, none, none, []⟩

/-- A Keystone response whose payload carries an empty token id. -/
def authEmptyTok : Option (HResp AuthBody) :=
  some ⟨200, AuthBody.parsed ⟨some (""), some ("ten"), some 100, some []⟩⟩

/-- A well-formed Keystone response. -/
def authOK : Option (HResp AuthBody) :=
  some ⟨200, AuthBody.parsed ⟨some ("tid"), some ("ten"), some 1000, some []⟩⟩

/-- A generic successful page response used as the main call of
`make_request` in the witnesses. -/
def pollOK : Option (HResp PollBody) := some ⟨200, PollBody.page ⟨true, [], none⟩⟩

/-- The URL `build_url` resolves for `nova`/`servers` over `[novaEntry]`. -/
def urlN : String := "http://nova/servers"

/-- A live poller registered for `urlN`. -/
def tLive : PollerT := ⟨"servers", urlN, none, 60, [], true, [oA]⟩

/-- A dead poller registered for `urlN`. -/
def tDead : PollerT := ⟨"servers", urlN, none, 60, [], false, [oA]⟩

def psLive : PluginState := ⟨[(urlN, tLive)], none, 60⟩

def psDead : PluginState := ⟨[(urlN, tDead)], none, 60⟩

def psEmpty : PluginState := ⟨[], none, 60⟩

/-- A neutron agent entry that is administratively disabled yet alive. -/
def vDis : WorkerVal := ⟨"node-1", "neutron-l3-agent", false, true, "", ""⟩

/-- An agent listing response containing only `vDis`. -/
def resp9 : Option (HResp WBody) := some ⟨200, WBody.obj (some [vDis])⟩

/-- The worker `iter_workers` yields for `vDis`. -/
def w9 : Worker := ⟨"node-1", "neutron-l3-agent", "disabled"⟩

/-! ## Theorems -/

/-- C5: `is_valid_token` returns true iff a (truthy) token exists and `now`
is strictly before the safety-adjusted expiry `E`; and the expiry stored by
a successful `get_token` is the server expiry minus the 30-second margin. -/
theorem c5_is_valid_token :
    (∀ (st : OSClientState) (now : Int),
        is_valid_token st now = true ↔
          (tokenTruthy st.token = true ∧ ∃ E, st.valid_until = some E ∧ now < E)) ∧
    (∀ (st : OSClientState) (tid tn : String) (ex : Int),
        (get_token st (some ⟨200, AuthBody.parsed ⟨some tid, some tn, some ex, some []⟩⟩)).1.valid_until
          = some (ex - 30)) := by
  constructor
  · intro st now
    cases hv : st.valid_until with
    | none => simp [is_valid_token, hv]
    | some v => simp [is_valid_token, hv]
  · intro st tid tn ex
    rfl

/-- C3 counterexample: on a transport failure of the credential exchange,
the prior expiry (`valid_until = some 100` in `c3State`) is not left
unchanged — `get_token` clears it to `none` (via `clear_token`) while
raising `KeystoneException`. -/
theorem c3_counterexample :
    (get_token c3State none).2 =
      Except.error (PyExc.keystone ("Cannot get a valid token")) ∧
    (get_token c3State none).1.valid_until = none ∧
    c3State.valid_until = some 100 := by
  exact ⟨rfl, rfl, rfl⟩

/-- C3 (amended): on success `get_token` replaces token, expiry (server
expiry minus 30s), tenant id and catalog; on transport failure or a
falsy/non-2xx status it raises `KeystoneException`, leaving tenant id and
catalog unchanged but clearing BOTH token and expiry; on a malformed payload
the raised error propagates with the fields assigned before the failing
access already updated (here: tenant id missing, token already replaced),
so partially-updated state is observable in that case. -/
theorem c3_get_token_state (st : OSClientState) :
    (∀ (tid tn : String) (ex : Int) (items : List CatalogItem),
        (runCatalog items []).2 = none →
        get_token st (some ⟨200, AuthBody.parsed ⟨some tid, some tn, some ex, some items⟩⟩) =
          (⟨some tid, some (ex - EXPIRATION_TOKEN_DELTA), some tn, (runCatalog items []).1⟩,
           Except.ok tid)) ∧
    (∀ auth, authFailed auth →
        (get_token st auth).1 = ⟨none, none, st.tenant_id, st.service_catalog⟩ ∧
        ∃ m, (get_token st auth).2 = Except.error (PyExc.keystone m)) ∧
    (∀ (tid : String) (exO : Option Int) (catO : Option (List CatalogItem)),
        get_token st (some ⟨200, AuthBody.parsed ⟨some tid, none, exO, catO⟩⟩) =
          (⟨some tid, none, st.tenant_id, st.service_catalog⟩, Except.error PyExc.keyErr)) := by
  refine ⟨?_, ?_, ?_⟩
  · intro tid tn ex items hcat
    have h : get_token st (some ⟨200, AuthBody.parsed ⟨some tid, some tn, some ex, some items⟩⟩) =
        (match (runCatalog items []).2 with
         | some e =>
           (⟨some tid, some (ex - EXPIRATION_TOKEN_DELTA), some tn, (runCatalog items []).1⟩,
            Except.error e)
         | none =>
           (⟨some tid, some (ex - EXPIRATION_TOKEN_DELTA), some tn, (runCatalog items []).1⟩,
            Except.ok tid)) := rfl
    rw [h, hcat]
  · intro auth hf
    cases auth with
    | none => exact ⟨rfl, ⟨("Cannot get a valid token"), rfl⟩⟩
    | some r =>
      have hcore : make_request_core (clear_token st) (some r) =
          (⟨none, none, st.tenant_id, st.service_catalog⟩, some r) := by
        by_cases h4 : r.status_code = 401 <;> simp [make_request_core, clear_token, h4]
      by_cases ht : respTruthy r.status_code = false
      · constructor
        · simp [get_token, hcore, ht]
        · exact ⟨("Cannot get a valid token"), by simp [get_token, hcore, ht]⟩
      · have ht' : respTruthy r.status_code = true := by
          revert ht; cases respTruthy r.status_code <;> simp
        have hs : r.status_code < 200 ∨ r.status_code > 299 := by
          rcases hf with h | h | h
          · exact absurd h ht
          · exact Or.inl h
          · exact Or.inr h
        constructor
        · simp [get_token, hcore, ht', hs]
        · exact ⟨("responded with bad status code"), by simp [get_token, hcore, ht', hs]⟩
  · intro tid exO catO
    rfl

/-- C3 witness: the three parts of `c3_get_token_state` instantiated: a
successful exchange over `c3State`, a transport failure, and a payload with
the tenant id missing. -/
theorem c3_witness :
    get_token c3State authOK =
      (⟨some ("tid"), some 970, some ("ten"), []⟩, Except.ok ("tid")) ∧
    ((get_token c3State none).1 = ⟨none, none, some ("ten0"), [novaEntry]⟩ ∧
      ∃ m, (get_token c3State none).2 = Except.error (PyExc.keystone m)) ∧
    get_token c3State (some ⟨200, AuthBody.parsed ⟨some ("tok1"), none, none, none⟩⟩) =
      (⟨some ("tok1"), none, some ("ten0"), [novaEntry]⟩, Except.error PyExc.keyErr) := by
  refine ⟨?_, ?_, ?_⟩
  · exact (c3_get_token_state c3State).1 ("tid") ("ten") 1000 [] rfl
  · exact (c3_get_token_state c3State).2.1 none trivial
  · exact (c3_get_token_state c3State).2.2 ("tok1") none none

/-- C2 counterexample: with no valid token and a failing token exchange
(transport error on the Keystone call), `make_request` does not return
`None` — it propagates the `KeystoneException` raised by `get_token` to its
caller (the `try` in `make_request` only wraps the transport call). -/
theorem c2_counterexample :
    (make_request (β := PollBody) stEmpty 0 true none pollOK).2 =
      Except.error (PyExc.keystone ("Cannot get a valid token")) := by
  exact rfl

/-- C2 (amended): when `tokenRequired` is true and no valid token is held,
a failure of `get_token` is NOT converted into a `None` return: the raised
exception (`KeystoneException` for transport errors and non-2xx statuses,
decode/key errors for malformed payloads) propagates out of `make_request`
to its caller.  `make_request` returns `None` without raising only in the
case where `get_token` returns a falsy (empty) token string. -/
theorem c2_make_request_auth_failure {β : Type} (st : OSClientState) (now : Int)
    (auth : Option (HResp AuthBody)) (call : Option (HResp β)) :
    (∀ (st1 : OSClientState) (e : PyExc),
        is_valid_token st now = false → get_token st auth = (st1, Except.error e) →
        make_request st now true auth call = (st1, Except.error e)) ∧
    (∀ st1 : OSClientState,
        is_valid_token st now = false → get_token st auth = (st1, Except.ok ("")) →
        make_request st now true auth call = (st1, Except.ok none)) := by
  constructor
  · intro st1 e hvalid hget
    simp [make_request, hvalid, hget]
  · intro st1 hvalid hget
    simp [make_request, hvalid, hget]

/-- C2 witness: over the fresh session `stEmpty`, a transport failure of
the exchange makes `make_request` raise, while an exchange that yields an
empty token makes it return `None`. -/
theorem c2_witness :
    make_request stEmpty 0 true none pollOK =
      (⟨none, none, none, []⟩, Except.error (PyExc.keystone ("Cannot get a valid token"))) ∧
    make_request stEmpty 0 true authEmptyTok pollOK =
      (⟨some (""), some 70, some ("ten"), []⟩, Except.ok none) := by
  constructor
  · exact (c2_make_request_auth_failure stEmpty 0 none pollOK).1
      ⟨none, none, none, []⟩ (PyExc.keystone ("Cannot get a valid token")) rfl rfl
  · exact (c2_make_request_auth_failure stEmpty 0 authEmptyTok pollOK).2
      ⟨some (""), some 70, some ("ten"), []⟩ rfl rfl

/-- C7: whenever the request issued by `make_request` comes back with HTTP
401 — whether the token gate was skipped (`token_required = false`), passed
on a valid token, or passed after a fresh successful `get_token` — the
session's token and expiry are cleared and the 401 response itself is
returned to the caller. -/
theorem c7_make_request_401 {β : Type} (st : OSClientState) (now : Int)
    (auth : Option (HResp AuthBody)) (b : β) :
    ((make_request st now false auth (some ⟨401, b⟩)).1.token = none ∧
      (make_request st now false auth (some ⟨401, b⟩)).1.valid_until = none ∧
      (make_request st now false auth (some ⟨401, b⟩)).2 = Except.ok (some ⟨401, b⟩)) ∧
    (is_valid_token st now = true →
      (make_request st now true auth (some ⟨401, b⟩)).1.token = none ∧
      (make_request st now true auth (some ⟨401, b⟩)).1.valid_until = none ∧
      (make_request st now true auth (some ⟨401, b⟩)).2 = Except.ok (some ⟨401, b⟩)) ∧
    (∀ (st1 : OSClientState) (tok : String),
      is_valid_token st now = false → get_token st auth = (st1, Except.ok tok) → tok ≠ "" →
      (make_request st now true auth (some ⟨401, b⟩)).1.token = none ∧
      (make_request st now true auth (some ⟨401, b⟩)).1.valid_until = none ∧
      (make_request st now true auth (some ⟨401, b⟩)).2 = Except.ok (some ⟨401, b⟩)) := by
  refine ⟨?_, ?_, ?_⟩
  · simp [make_request, make_request_core, clear_token]
  · intro hvalid
    simp [make_request, make_request_core, clear_token, hvalid]
  · intro st1 tok hvalid hget htok
    simp [make_request, make_request_core, clear_token, hvalid, hget, htok]

/-- C7 witness: a 401 on a call with a currently valid token, and a 401 on
a call that first re-authenticated successfully; in both cases token and
expiry end up cleared and the response is handed back. -/
theorem c7_witness :
    ((make_request c3State 0 true none (some ⟨401, PollBody.malformed⟩)).1.token = none ∧
      (make_request c3State 0 true none (some ⟨401, PollBody.malformed⟩)).1.valid_until = none ∧
      (make_request c3State 0 true none (some ⟨401, PollBody.malformed⟩)).2 =
        Except.ok (some ⟨401, PollBody.malformed⟩)) ∧
    ((make_request stEmpty 0 true authOK (some ⟨401, PollBody.malformed⟩)).1.token = none ∧
      (make_request stEmpty 0 true authOK (some ⟨401, PollBody.malformed⟩)).1.valid_until = none ∧
      (make_request stEmpty 0 true authOK (some ⟨401, PollBody.malformed⟩)).2 =
        Except.ok (some ⟨401, PollBody.malformed⟩)) := by
  constructor
  · exact (c7_make_request_401 c3State 0 none PollBody.malformed).2.1 (by decide)
  · exact (c7_make_request_401 stEmpty 0 authOK PollBody.malformed).2.2
      ⟨some ("tid"), some 970, some ("ten"), []⟩ ("tid") (by decide) rfl (by decide)

/-- C1 (evaluation at the failing input): the first page returns `[oA, oB]`
with a `next` link, the second page's body lacks the collection key, so the
inner loop takes the warning branch (lines 191-204, exit `failed`).  The
end-of-cycle snapshot is nonetheless the partial first page `[oA, oB]`, not
`[]`: the reset `self._objects = []` at line 203 is overwritten by the
unconditional `self._objects = objs` at line 243. -/
theorem c1_partial_snapshot_published :
    runCycleFinalSnapshot c1req (some 2) 5 = [oA, oB] ∧
    (pageWalk c1req (some 2) 5 none []).exitK = WalkExit.failed := by
  exact ⟨rfl, rfl⟩

/-- The page-walk over a transport that serves a well-formed paginated
collection: it visits exactly the markers `m, last p1, last p2, ...` and
accumulates the concatenation of all pages, ending with a normal `break`. -/
theorem pageWalk_serves_aux (req : Option String → MRResult) (L : Nat) :
    ∀ (pages : List (List PageObj)) (m : Option String) (objs : List PageObj) (fuel : Nat),
      serves req m pages → pages ≠ [] → pages.length ≤ fuel →
      pageWalk req (some L) fuel m objs =
        ⟨objs ++ pages.flatten, WalkExit.complete,
         m :: pages.dropLast.map (fun p => some (lastIdOf p))⟩ := by
  intro pages
  induction pages with
  | nil => intro m objs fuel _ hne _; exact absurd rfl hne
  | cons p rest ih =>
    intro m objs fuel hs hne hf
    obtain ⟨hp, ⟨ls, hreq, hnext⟩, hrest⟩ := hs
    cases fuel with
    | zero => simp at hf
    | succ f =>
      obtain ⟨o, os, rfl⟩ : ∃ o os, p = o :: os := by
        cases p with
        | nil => exact absurd rfl hp
        | cons o os => exact ⟨o, os, rfl⟩
      cases rest with
      | nil =>
        have hnx : hasNextLink ls = false := by simpa using hnext
        simp [pageWalk, walkStep, hreq, respTruthy, hnx, List.dropLast]
      | cons q rest' =>
        have hnx : hasNextLink ls = true := by simpa using hnext
        have hlen : (q :: rest').length ≤ f := by
          simp only [List.length_cons] at hf ⊢
          omega
        have ihr := ih (some (lastIdOf (o :: os))) (objs ++ (o :: os)) f hrest
          (by simp) hlen
        simp [pageWalk, walkStep, hreq, respTruthy, hnx, ihr, List.append_assoc,
          List.dropLast]

/-- C4: over every well-formed N-page paginated collection (each non-final
page carrying a `next` link, the last carrying none, pagination limit
configured), the page-walk issues exactly N requests, using as marker of
each subsequent request the id of the last object of the current page, and
accumulates the concatenation of all pages in page order. -/
theorem c4_page_walk (req : Option String → MRResult) (L : Nat)
    (pages : List (List PageObj)) (fuel : Nat)
    (hs : serves req none pages) (hne : pages ≠ []) (hf : pages.length ≤ fuel) :
    (pageWalk req (some L) fuel none []).objs = pages.flatten ∧
    (pageWalk req (some L) fuel none []).exitK = WalkExit.complete ∧
    (pageWalk req (some L) fuel none []).markers =
      none :: pages.dropLast.map (fun p => some (lastIdOf p)) ∧
    (pageWalk req (some L) fuel none []).markers.length = pages.length := by
  have h := pageWalk_serves_aux req L pages none [] fuel hs hne hf
  rw [h]
  refine ⟨by simp, rfl, rfl, ?_⟩
  have hpos : 0 < pages.length := List.length_pos.mpr hne
  simp only [List.length_cons, List.length_map, List.length_dropLast]
  omega

/-- C4 witness: the spec's scenario — 3 pages of 2 objects each, limit 2,
last page without a `next` link — yields the 6 objects after exactly 3
requests, with markers `none, b, d`. -/
theorem c4_witness :
    (pageWalk req3 (some 2) 5 none []).objs = wfPages.flatten ∧
    (pageWalk req3 (some 2) 5 none []).exitK = WalkExit.complete ∧
    (pageWalk req3 (some 2) 5 none []).markers =
      none :: wfPages.dropLast.map (fun p => some (lastIdOf p)) ∧
    (pageWalk req3 (some 2) 5 none []).markers.length = wfPages.length := by
  have hserves : serves req3 none wfPages := by
    refine ⟨by decide, ⟨[⟨some ("next")⟩], rfl, by decide⟩,
            by decide, ⟨[⟨some ("next")⟩], rfl, by decide⟩,
            by decide, ⟨[⟨some ("prev")⟩], rfl, by decide⟩, trivial⟩
  exact c4_page_walk req3 2 wfPages 5 hserves (by decide) (by decide)

/-- The page-walk step reads nothing of a truthy response's status code:
normalizing the status of every truthy response to 200 does not change the
step taken. -/
theorem walkStep_normResult (pl : Option Nat) (objs : List PageObj) (res : MRResult) :
    walkStep pl objs (normResult res) = walkStep pl objs res := by
  cases res with
  | exc => rfl
  | noneResp => rfl
  | resp r =>
    by_cases hc : 400 ≤ r.status_code ∧ r.status_code < 600
    · simp [normResult, walkStep, respTruthy, hc]
    · simp [normResult, walkStep, respTruthy, hc]

/-- `pageWalk` is invariant under normalizing every truthy status to 200. -/
theorem pageWalk_normStatus (req : Option String → MRResult) (pl : Option Nat) :
    ∀ (fuel : Nat) (m : Option String) (objs : List PageObj),
      pageWalk (normStatus req) pl fuel m objs = pageWalk req pl fuel m objs := by
  intro fuel
  induction fuel with
  | zero => intro m objs; rfl
  | succ f ih =>
    intro m objs
    have hstep : walkStep pl objs (normStatus req m) = walkStep pl objs (req m) :=
      walkStep_normResult pl objs (req m)
    simp only [pageWalk, hstep]
    cases h : walkStep pl objs (req m) with
    | stop o e => rfl
    | next o m2 => simp [ih]

/-- C10 counterexample: a page response with status 500 whose JSON body does
contain the expected collection key (with one object) is rejected — the walk
takes the failure branch and the object is never appended.  The poller does
inspect the status code, through `if not r:` (`Response.__nonzero__`). -/
theorem c10_counterexample :
    (pageWalk c10req (some 2) 5 none []).objs = [] ∧
    (pageWalk c10req (some 2) 5 none []).exitK = WalkExit.failed := by
  exact ⟨rfl, rfl⟩

/-- C10 (amended): the page-walk rejects any page response whose status code
lies in [400, 600) (the response is falsy, `if not r:`), regardless of its
body; for truthy responses (status outside [400, 600)) the status code is
never inspected further — only the body shape decides acceptance, as shown
by invariance under normalizing every truthy status to 200. -/
theorem c10_status_code_handling :
    (∀ (req : Option String → MRResult) (pl : Option Nat) (fuel : Nat)
        (marker : Option String) (objs : List PageObj) (r : HResp PollBody),
        req marker = MRResult.resp r → 400 ≤ r.status_code → r.status_code < 600 →
        pageWalk req pl (fuel + 1) marker objs = ⟨objs, WalkExit.failed, [marker]⟩) ∧
    (∀ (req : Option String → MRResult) (pl : Option Nat) (fuel : Nat)
        (m : Option String) (objs : List PageObj),
        pageWalk (normStatus req) pl fuel m objs = pageWalk req pl fuel m objs) := by
  constructor
  · intro req pl fuel marker objs r hreq h4 h6
    have ht : respTruthy r.status_code = false := by
      simp [respTruthy, h4, h6]
    simp [pageWalk, walkStep, hreq, ht]
  · intro req pl fuel m objs
    exact pageWalk_normStatus req pl fuel m objs

/-- C10 witness: the 500 response of `c10req` makes the first step fail, and
status normalization leaves the walk over `req3` unchanged. -/
theorem c10_witness :
    pageWalk c10req (some 2) 1 none [] = ⟨[], WalkExit.failed, [none]⟩ ∧
    pageWalk (normStatus req3) (some 2) 5 none [] = pageWalk req3 (some 2) 5 none [] := by
  constructor
  · exact c10_status_code_handling.1 c10req (some 2) 0 none []
      ⟨500, PollBody.page ⟨true, [oA], none⟩⟩ rfl (by decide) (by decide)
  · exact c10_status_code_handling.2 req3 (some 2) 5 none []

theorem lookupUrl_eq_none_iff (l : List (String × PollerT)) (u : String) :
    lookupUrl l u = none ↔ u ∉ l.map Prod.fst := by
  induction l with
  | nil => simp [lookupUrl]
  | cons q rest ih =>
    by_cases h : q.1 = u
    · simp [lookupUrl, h]
    · simp only [lookupUrl, h, if_false, List.map_cons, List.mem_cons, ih]
      constructor
      · rintro hr (hu | hu)
        · exact h hu.symm
        · exact hr hu
      · intro hr hu
        exact hr (Or.inr hu)

theorem lookupUrl_append_none (l l' : List (String × PollerT)) (u : String) :
    lookupUrl l u = none → lookupUrl (l ++ l') u = lookupUrl l' u := by
  induction l with
  | nil => intro _; rfl
  | cons q rest ih =>
    intro h
    by_cases hq : q.1 = u
    · simp [lookupUrl, hq] at h
    · simp only [lookupUrl, hq, if_false] at h
      simp only [List.cons_append, lookupUrl, hq, if_false]
      exact ih h

theorem lookupUrl_singleton (u : String) (t : PollerT) :
    lookupUrl [(u, t)] u = some t := by
  simp [lookupUrl]

theorem mem_map_fst_eraseUrl (l : List (String × PollerT)) (u v : String) :
    v ∈ (eraseUrl l u).map Prod.fst → v ∈ l.map Prod.fst := by
  induction l with
  | nil => intro h; exact h
  | cons q rest ih =>
    by_cases hq : q.1 = u
    · simp only [eraseUrl, hq, if_true, List.map_cons, List.mem_cons]
      intro h
      exact Or.inr h
    · simp only [eraseUrl, hq, if_false, List.map_cons, List.mem_cons]
      rintro (h | h)
      · exact Or.inl h
      · exact Or.inr (ih h)

theorem nodup_map_fst_eraseUrl (l : List (String × PollerT)) (u : String) :
    (l.map Prod.fst).Nodup → ((eraseUrl l u).map Prod.fst).Nodup := by
  induction l with
  | nil => intro h; exact h
  | cons q rest ih =>
    intro h
    rw [List.map_cons, List.nodup_cons] at h
    by_cases hq : q.1 = u
    · simpa [eraseUrl, hq] using h.2
    · rw [show eraseUrl (q :: rest) u = q :: eraseUrl rest u from by simp [eraseUrl, hq]]
      rw [List.map_cons, List.nodup_cons]
      exact ⟨fun hm => h.1 (mem_map_fst_eraseUrl rest u q.1 hm), ih h.2⟩

theorem lookupUrl_eraseUrl_self (l : List (String × PollerT)) (u : String) :
    (l.map Prod.fst).Nodup → lookupUrl (eraseUrl l u) u = none := by
  induction l with
  | nil => intro _; rfl
  | cons q rest ih =>
    intro h
    rw [List.map_cons, List.nodup_cons] at h
    by_cases hq : q.1 = u
    · have hu : u ∉ rest.map Prod.fst := hq ▸ h.1
      rw [show eraseUrl (q :: rest) u = rest from by simp [eraseUrl, hq]]
      exact (lookupUrl_eq_none_iff rest u).mpr hu
    · rw [show eraseUrl (q :: rest) u = q :: eraseUrl rest u from by simp [eraseUrl, hq]]
      rw [show lookupUrl (q :: eraseUrl rest u) u = lookupUrl (eraseUrl rest u) u from by
        simp [lookupUrl, hq]]
      exact ih h.2

/-- C6: the registry keyed by resolved URL holds at most one poller per URL:
a call that finds a live poller for the URL reuses it unchanged (no new
poller is created); a call that finds a dead one evicts it (so the URL has
no poller afterwards, given distinct keys) and returns an empty snapshot;
a call that finds none registers exactly one fresh poller for the URL; and
key distinctness is preserved by every call. -/
theorem c6_poller_registry (ps : PluginState) (catalog : List CatalogEntry)
    (project object_name api_version : String) (params : List (String × String))
    (detail : Bool) (url : String)
    (hurl : build_url catalog project (resourceOf object_name api_version detail) = some url) :
    (∀ t, lookupUrl ps.threads url = some t → t.alive = true →
        cp_get_objects ps catalog project object_name api_version params detail =
          (ps, poller_get_objects t)) ∧
    (∀ t, lookupUrl ps.threads url = some t → t.alive = false →
        cp_get_objects ps catalog project object_name api_version params detail =
          (⟨eraseUrl ps.threads url, ps.pagination_limit, ps.polling_interval⟩, []) ∧
        ((ps.threads.map Prod.fst).Nodup →
          lookupUrl (eraseUrl ps.threads url) url = none)) ∧
    (lookupUrl ps.threads url = none →
        cp_get_objects ps catalog project object_name api_version params detail =
          (⟨ps.threads ++ [(url, newPoller ps object_name url (optsOf ps params))],
            ps.pagination_limit, ps.polling_interval⟩, []) ∧
        lookupUrl (ps.threads ++ [(url, newPoller ps object_name url (optsOf ps params))]) url =
          some (newPoller ps object_name url (optsOf ps params))) ∧
    ((ps.threads.map Prod.fst).Nodup →
        (((cp_get_objects ps catalog project object_name api_version params detail).1).threads.map
            Prod.fst).Nodup) := by
  refine ⟨?_, ?_, ?_, ?_⟩
  · intro t hl ha
    simp [cp_get_objects, hurl, hl, ha]
  · intro t hl ha
    exact ⟨by simp [cp_get_objects, hurl, hl, ha],
           fun hnd => lookupUrl_eraseUrl_self ps.threads url hnd⟩
  · intro hl
    refine ⟨by simp [cp_get_objects, hurl, hl, newPoller, poller_get_objects], ?_⟩
    rw [lookupUrl_append_none ps.threads _ url hl, lookupUrl_singleton]
  · intro hnd
    cases hl : lookupUrl ps.threads url with
    | none =>
      have hmem := (lookupUrl_eq_none_iff ps.threads url).mp hl
      simp only [cp_get_objects, hurl, hl]
      rw [List.map_append]
      simp [List.nodup_append, hnd, hmem]
    | some t =>
      by_cases ha : t.alive = false
      · simp only [cp_get_objects, hurl, hl, ha, if_true]
        exact nodup_map_fst_eraseUrl ps.threads url hnd
      · have ha' : t.alive = true := by revert ha; cases t.alive <;> simp
        simpa [cp_get_objects, hurl, hl, ha'] using hnd

/-- C6 witness: over the catalog `[novaEntry]` and URL
`http://nova/servers` — a live poller is reused with its snapshot returned,
a dead poller is evicted with `[]` returned, and a fresh poller is created
when none is registered. -/
theorem c6_witness :
    cp_get_objects psLive [novaEntry] ("nova") ("servers") ("") [] false = (psLive, [oA]) ∧
    cp_get_objects psDead [novaEntry] ("nova") ("servers") ("") [] false =
      (⟨[], none, 60⟩, []) ∧
    cp_get_objects psEmpty [novaEntry] ("nova") ("servers") ("") [] false =
      (⟨[(urlN, newPoller psEmpty ("servers") urlN (optsOf psEmpty []))], none, 60⟩, []) := by
  have hurl : build_url [novaEntry] ("nova") (resourceOf ("servers") ("") false) = some urlN := by
    decide
  refine ⟨?_, ?_, ?_⟩
  · exact (c6_poller_registry psLive [novaEntry] ("nova") ("servers") ("") [] false urlN
      hurl).1 tLive rfl rfl
  · exact ((c6_poller_registry psDead [novaEntry] ("nova") ("servers") ("") [] false urlN
      hurl).2.1 tDead rfl rfl).1
  · exact ((c6_poller_registry psEmpty [novaEntry] ("nova") ("servers") ("") [] false urlN
      hurl).2.2.1 rfl).1

theorem cogb_aux {α K : Type} [DecidableEq K] (g : α → K) (cf : α → PyVal) :
    ∀ (l : List α) (counts : K → Int) (k : K),
      l.foldl (cogbStep g (some cf)) counts k =
        counts k +
          ((l.filter (fun o => decide (g o = k))).map (fun o => (toNum (cf o)).getD 0)).sum := by
  intro l
  induction l with
  | nil => intro counts k; simp
  | cons o rest ih =>
    intro counts k
    rw [List.foldl_cons, ih]
    cases hn : toNum (cf o) with
    | none =>
      by_cases h : g o = k
      · simp [cogbStep, hn, List.filter_cons, h]
      · have h' : ¬(k = g o) := fun hh => h hh.symm
        simp [cogbStep, hn, List.filter_cons, h, h']
    | some n =>
      by_cases h : g o = k
      · simp [cogbStep, hn, List.filter_cons, h, updateFn]
        omega
      · have h' : ¬(k = g o) := fun hh => h hh.symm
        simp [cogbStep, hn, List.filter_cons, h, h', updateFn]

/-- C8: `count_objects_group_by` with a counting function never fails and,
for every group key, returns the sum over the group's objects of the
object's numeric count, with every object whose count value is non-numeric
(so that `counts[s] += v` would raise `TypeError`) contributing nothing. -/
theorem c8_count_objects_group_by {α K : Type} [DecidableEq K]
    (list_object : List α) (group_by_func : α → K) (count_func : α → PyVal) (k : K) :
    count_objects_group_by list_object group_by_func (some count_func) k =
      ((list_object.filter (fun o => decide (group_by_func o = k))).map
        (fun o => (toNum (count_func o)).getD 0)).sum := by
  unfold count_objects_group_by
  rw [cogb_aux]
  simp

/-- C9: every worker yielded by `iter_workers` for `neutron` comes from one
entry of the agent listing, with state `disabled` whenever the entry's
`admin_state_up` is false (regardless of `alive`), and otherwise `up` or
`down` according to `alive`; in particular every yielded state lies in
the set of `up`, `down` and `disabled`. -/
theorem c9_iter_workers_neutron (resp : Option (HResp WBody)) (w : Worker)
    (hw : w ∈ iter_workers ("neutron") resp) :
    (w.state = "up" ∨ w.state = "down" ∨ w.state = "disabled") ∧
    ∃ v : WorkerVal,
      (∃ (r : HResp WBody) (es : List WorkerVal),
        resp = some r ∧ r.status_code = 200 ∧ r.body = WBody.obj (some es) ∧ v ∈ es) ∧
      w.host = v.host ∧ w.service = v.binary ∧
      w.state =
        (if v.admin_state_up = false then ("disabled" : String)
         else if v.alive = true then ("up") else ("down")) := by
  cases resp with
  | none => simp [iter_workers] at hw
  | some r =>
    by_cases hst : r.status_code = 200
    · cases hb : r.body with
      | malformed => simp [iter_workers, hst, hb] at hw
      | obj es =>
        cases es with
        | none => simp [iter_workers, hst, hb] at hw
        | some vals =>
          simp only [iter_workers, hst, hb, ne_eq, not_true_eq_false, if_false] at hw
          obtain ⟨v, hv, hwv⟩ := List.mem_filterMap.mp hw
          have hw2 : w = ⟨v.host, v.binary,
              if v.admin_state_up = false then ("disabled")
              else if v.alive = true then ("up") else ("down")⟩ := by
            simp only [workerOf, if_pos rfl] at hwv
            exact (Option.some.injEq _ _).mp hwv |>.symm
          subst hw2
          refine ⟨?_, v, ⟨r, vals, rfl, hst, hb, hv⟩, rfl, rfl, rfl⟩
          by_cases ha : v.admin_state_up = false
          · simp [ha]
          · by_cases hl : v.alive = true
            · simp [ha, hl]
            · simp [ha, hl]
    · simp [iter_workers, hst] at hw

/-- C9 witness: a single-agent listing whose entry has
`admin_state_up = false` and `alive = true` yields a worker whose state is
`disabled`. -/
theorem c9_witness :
    (w9.state = "up" ∨ w9.state = "down" ∨ w9.state = "disabled") ∧
    ∃ v : WorkerVal,
      (∃ (r : HResp WBody) (es : List WorkerVal),
        resp9 = some r ∧ r.status_code = 200 ∧ r.body = WBody.obj (some es) ∧ v ∈ es) ∧
      w9.host = v.host ∧ w9.service = v.binary ∧
      w9.state =
        (if v.admin_state_up = false then ("disabled" : String)
         else if v.alive = true then ("up") else ("down")) := by
  exact c9_iter_workers_neutron resp9 w9 (by decide)

end CollectdOpenstack
